import Mathlib

/-!
Verification development for the AirAnchor gateway (`src/app`).

The Python source is shallowly embedded: pure functions become Lean
functions, the stateful dispatcher loop becomes explicit state passing,
Python floats become rationals, and fallible calls return `Except` /
`Option`.  External effects (secp256k1 crypto, CBOR, SHA-512, the CA
HTTP endpoint, the validator stream) are parameters of the `Server`
structure, so every theorem quantifies over their behaviour unless a
claim pins a concrete value.
-/

namespace AirAnchor

/-! ## Python string slicing (over `String.data`) -/

/-- Python `s[:n]`. -/
def pySliceTo (s : String) (n : Nat) : String := ⟨s.data.take n⟩

/-- Python `s[-n:]` for `n ≥ 1`: the last `n` characters, or all of `s`
when `s` is shorter than `n` (negative indices clamp). -/
def pySliceLast (s : String) (n : Nat) : String := ⟨s.data.drop (s.data.length - n)⟩

/-- Lowercase hexadecimal character, as produced by `hashlib.sha512(..).hexdigest()`
and by the hex encodings of keys and signatures. -/
def isHexChar (c : Char) : Bool := (('0' ≤ c && c ≤ '9') || ('a' ≤ c && c ≤ 'f'))

/-- Every character of the string is lowercase hex. -/
def isHexStr (s : String) : Bool := s.data.all isHexChar

/-! ## Address derivation (`src/app/core/__init__.py`, lines 43-57) -/

/-- `FAMILY_NAME = 'AirAnchor'`. -/
def FAMILY_NAME : String := "AirAnchor"

/-- `FAMILY_VERSION = '1.0'`. -/
def FAMILY_VERSION : String := "1.0"

/-- `LOCATION_KEY_ADDRESS_PREFIX = _sha512(FAMILY_NAME.encode('utf-8'))[:6]`.
SHA-512 is external to this development; the constant below is the
concrete value of `hashlib.sha512(b'AirAnchor').hexdigest()[:6]`. -/
def locationKeyAddressPrefix6 : String := "2519a4"

/-- `make_location_key_address(key, hash=None)`.  `hash = none` models the
one-argument call; Python `if not hash` also treats the empty string as
absent. -/
def make_location_key_address (key : String) (hash : Option String) : String :=
  let pre := locationKeyAddressPrefix6 ++ pySliceTo key 6
  match hash with
  | none => pre
  | some h => if h = "" then pre else pre ++ pySliceLast h 58

/-! ## Data model

`src/app/core` reads `tr.header.sender_public_key`,
`tr.header.certificate_request`, `tr.signature` and `tr.data` from a
transaction request.  The dataclass in `src/app/model` is an older
variant without `header`/`signature`; the shape used by the core is the
one the spec describes, and is modelled from the spec where noted. -/

/-- CSR carried by a request: `{distinguished_name, public_key, optional_params}`. -/
structure CertificateRequest where
  distinguished_name : String
  public_key : String
  optional_params : Option String
  deriving DecidableEq, Repr

/-- Modelled from the spec: the request header used by `Server`
(`src/app/model` lacks this variant).  It carries the sender key and the
embedded CSR; `serialize` (CBOR) is a `Server` parameter. -/
structure TransactionRequestHeader where
  sender_public_key : String
  certificate_request : CertificateRequest
  deriving DecidableEq, Repr

/-- Modelled from the spec: the transaction request shape read by
`Server.create_and_send_batch` — a header, the client signature over the
serialized header, and opaque data. -/
structure TransactionRequest where
  header : TransactionRequestHeader
  signature : String
  data : String
  deriving DecidableEq, Repr

/-- Modelled from the spec: `TransactionPayload` fields
`{certificate_request, certificate_authority_signature, sender_public_key,
nonce, data}` (`TransactionPayload.create` is called by the core but absent
from `src/app/model`; per the spec's data model the payload's
`sender_public_key` is the request's sender key). -/
structure TransactionPayload where
  certificate_request : CertificateRequest
  certificate_authority_signature : String
  sender_public_key : String
  nonce : String
  data : String
  deriving DecidableEq, Repr

/-- Protobuf `TransactionHeader`, kept as a structure (its protobuf
serialization is a `Server` parameter). -/
structure TransactionHeader where
  signer_public_key : String
  family_name : String
  family_version : String
  inputs : List String
  outputs : List String
  dependencies : List String
  payload_sha512 : String
  batcher_public_key : String
  nonce : String
  deriving DecidableEq, Repr

/-- Protobuf `Transaction`: header, serialized payload bytes, header signature. -/
structure Transaction where
  header : TransactionHeader
  payload : String
  header_signature : String
  deriving DecidableEq, Repr

/-- Protobuf `BatchHeader`. -/
structure BatchHeader where
  signer_public_key : String
  transaction_ids : List String
  deriving DecidableEq, Repr

/-- Protobuf `Batch`. -/
structure Batch where
  header : BatchHeader
  transactions : List Transaction
  header_signature : String
  deriving DecidableEq, Repr

/-- Protobuf `BatchList`. -/
structure BatchList where
  batches : List Batch
  deriving DecidableEq, Repr

/-- Parsed secp256k1 public key (`Secp256k1PublicKey.from_hex`); parsing
and verification are `Server` parameters. -/
structure Secp256k1PublicKey where
  hex : String
  deriving DecidableEq, Repr

/-! ## TokenBucket (`src/app/utils/TokenBucket.py`)

Floats are modelled as rationals; `time.monotonic()` values are passed in
explicitly.  Only the single key `'bucket'` is ever used, so the storage
dictionary is an `Option Bucket` (`none` = `KeyError` path). -/

/-- One entry of `MemoryStorage._buckets`: `[tokens_in_bucket, last_replenished_at]`. -/
structure Bucket where
  tokens : ℚ
  lastReplenishedAt : ℚ
  deriving DecidableEq, Repr

namespace MemoryStorage

/-- `MemoryStorage.replenish`: on `KeyError` initialize to full capacity;
if `now < last_replenished_at` leave the bucket untouched (race
mitigation); otherwise set the count to
`min(capacity, tokens + rate * (now − last))` and stamp `now`. -/
def replenish (rate capacity now : ℚ) : Option Bucket → Bucket
  | none => ⟨capacity, now⟩
  | some b =>
    if now < b.lastReplenishedAt then b
    else ⟨min capacity (b.tokens + rate * (now - b.lastReplenishedAt)), now⟩

/-- `MemoryStorage.consume`: all-or-nothing removal. -/
def consume (numTokens : ℚ) (b : Bucket) : Bool × Bucket :=
  if b.tokens < numTokens then (false, b)
  else (true, ⟨b.tokens - numTokens, b.lastReplenishedAt⟩)

end MemoryStorage

namespace TokenBucket

/-- `TokenBucket.consume(num_tokens)`: raises (`none`) when
`num_tokens < 1`; otherwise replenishes the bucket at time `now`, then
attempts the all-or-nothing removal.  Returns the conformance flag and
the bucket state after the call. -/
def consume (rate capacity numTokens now : ℚ) (st : Option Bucket) :
    Option (Bool × Bucket) :=
  if numTokens < 1 then none
  else some (MemoryStorage.consume numTokens (MemoryStorage.replenish rate capacity now st))

end TokenBucket

/-! ## Server (`src/app/core/__init__.py`) -/

/-- Exceptions raised inside `Server` and caught by the dispatcher:
`Sawtooth_back_pressure_exception`, `Sawtooth_invalid_transaction_format`
(`src/app/core/exceptions`), and FastAPI's `HTTPException` used for CA
failures. -/
inductive ServerError
  | backPressure
  | invalidTransactionFormat
  | httpException (status : Nat) (detail : String)
  deriving DecidableEq, Repr

/-- Result of `requests.post` to the CA: a transport-level exception, or a
response with a status code, a reason phrase, and a JSON body. -/
inductive CAResult
  | transportError (msg : String)
  | response (statusCode : Nat) (reason : String) (json : String)
  deriving DecidableEq, Repr

/-- The `Server` object with its external collaborators as parameters:
the signer (`sign`, public key), secp256k1 parsing/verification, CBOR and
protobuf serialization, SHA-512 payload hashing, the CA endpoint, the
nonce source, and the status name the validator returns for the submit. -/
structure Server where
  signerPubKey : String
  sign : String → String
  parsePubKey : String → Option Secp256k1PublicKey
  verify : String → String → Secp256k1PublicKey → Bool
  serializeRequestHeader : TransactionRequestHeader → String
  ca : CertificateRequest → CAResult
  serializeTxHeader : TransactionHeader → String
  serializeBatchHeader : BatchHeader → String
  serializePayload : TransactionPayload → String
  payloadHash : TransactionPayload → String
  nonce : String
  validatorStatus : String

namespace Server

/-- `Server._validate_transaction_request`: parse the sender's public key
(any exception → `False`), then verify the client signature over the
serialized request header. -/
def validateTransactionRequest (srv : Server) (tr : TransactionRequest) : Bool :=
  match srv.parsePubKey tr.header.sender_public_key with
  | none => false
  | some pk => srv.verify tr.signature (srv.serializeRequestHeader tr.header) pk

/-- `Server._send_csr_firm_request`: POST the CSR; transport errors →
`HTTPException(500)`, HTTP 401 → `HTTPException(401, reason)`, any other
non-200 → `HTTPException(500, ...)`, 200 → the JSON body. -/
def sendCsrFirmRequest (srv : Server) (csr : CertificateRequest) : Except ServerError String :=
  match srv.ca csr with
  | .transportError m => .error (.httpException 500 m)
  | .response code reason json =>
    if code = 401 then .error (.httpException 401 reason)
    else if code ≠ 200 then
      .error (.httpException 500 ("There was an error trying to call ca. Reason: " ++ reason))
    else .ok json

/-- `Server._create_payload`: `TransactionPayload.create(signer, csr,
csr_firm, data)`.  The `create` constructor is absent from
`src/app/model`; per the spec's data model the payload carries the
request's CSR, the CA signature, the sender key, a fresh nonce, and the
request data. -/
def createPayload (srv : Server) (tr : TransactionRequest) (csrFirm : String) :
    TransactionPayload :=
  { certificate_request := tr.header.certificate_request
    certificate_authority_signature := csrFirm
    sender_public_key := tr.header.sender_public_key
    nonce := srv.nonce
    data := tr.data }

/-- `Server._wrap_payload_in_transaction`: derive the address from the
payload's sender key and hash, build the `TransactionHeader` with
`inputs = outputs = [address]`, sign its serialization, and wrap. -/
def wrapPayloadInTransaction (srv : Server) (payload : TransactionPayload) : Transaction :=
  let payload_hash := srv.payloadHash payload
  let batcher_key := srv.signerPubKey
  let sender_key := payload.sender_public_key
  let address := make_location_key_address sender_key (some payload_hash)
  let header : TransactionHeader :=
    { signer_public_key := batcher_key
      family_name := FAMILY_NAME
      family_version := FAMILY_VERSION
      inputs := [address]
      outputs := [address]
      dependencies := []
      payload_sha512 := payload_hash
      batcher_public_key := batcher_key
      nonce := srv.nonce }
  let signature := srv.sign (srv.serializeTxHeader header)
  { header := header
    payload := srv.serializePayload payload
    header_signature := signature }

/-- `Server._merge_transactions_to_batches`: one `Batch` whose header
lists the transactions' header signatures in order, wrapped in a
`BatchList`. -/
def mergeTransactionsToBatches (srv : Server) (transactions : List Transaction) : BatchList :=
  let header : BatchHeader :=
    { signer_public_key := srv.signerPubKey
      transaction_ids := transactions.map (fun t => t.header_signature) }
  let signature := srv.sign (srv.serializeBatchHeader header)
  { batches := [{ header := header, transactions := transactions, header_signature := signature }] }

/-- `Server._validate_batch_response_status`: `INVALID_BATCH` and
`QUEUE_FULL` raise their mapped exceptions; any other status name is
returned as the success value. -/
def validateBatchResponseStatus (status : String) : Except ServerError String :=
  if status = "INVALID_BATCH" then .error .invalidTransactionFormat
  else if status = "QUEUE_FULL" then .error .backPressure
  else .ok status

/-- `Server._send_batches`: submit the batch list and map the response
status (the stream transport is external; `srv.validatorStatus` is the
status name parsed from its response). -/
def sendBatches (srv : Server) (_batches : BatchList) : Except ServerError String :=
  validateBatchResponseStatus srv.validatorStatus

/-- The `for tr in trs` loop of `Server.create_and_send_batch`: skip
requests failing validation; call the CA for the rest (its error aborts
the whole loop); accumulate payloads and wrapped transactions in order. -/
def processRequests (srv : Server) :
    List TransactionRequest → Except ServerError (List TransactionPayload × List Transaction)
  | [] => .ok ([], [])
  | tr :: rest =>
    if srv.validateTransactionRequest tr then
      match srv.sendCsrFirmRequest tr.header.certificate_request with
      | .error e => .error e
      | .ok csrFirm =>
        let payload := srv.createPayload tr csrFirm
        let transaction := srv.wrapPayloadInTransaction payload
        match srv.processRequests rest with
        | .error e => .error e
        | .ok (ps, ts) => .ok (payload :: ps, transaction :: ts)
    else srv.processRequests rest

/-- The transaction `create_and_send_batch` builds for one request, when
its CA call succeeds (`none` when the CA fails for that CSR). -/
def buildTransactionOf (srv : Server) (tr : TransactionRequest) : Option Transaction :=
  match srv.sendCsrFirmRequest tr.header.certificate_request with
  | .ok csrFirm => some (srv.wrapPayloadInTransaction (srv.createPayload tr csrFirm))
  | .error _ => none

/-- `Server.create_and_send_batch`: process the requests, merge into a
batch list, submit, and (in Python) spawn the confirmation listeners.
The Python function returns `None`; the embedding returns the values the
call produced — the surviving payloads, the transactions, and the final
status — so theorems can inspect them. -/
def createAndSendBatch (srv : Server) (trs : List TransactionRequest) :
    Except ServerError (List TransactionPayload × List Transaction × String) :=
  match srv.processRequests trs with
  | .error e => .error e
  | .ok (ps, ts) =>
    match srv.sendBatches (srv.mergeTransactionsToBatches ts) with
    | .error e => .error e
    | .ok status => .ok (ps, ts, status)

end Server

/-! ## Dispatcher loop (`src/app/main.py`) -/

/-- One upstream delivery held in the staging buffer: the delivery tag of
its `(ch, method, body)` triple, and the raw body bytes. -/
structure Message where
  tag : Nat
  body : String
  deriving DecidableEq, Repr

/-- Observable acknowledgement calls posted to the upstream channel. -/
inductive Action
  | ackMultiple (tag : Nat)
  | reject (tag : Nat) (requeue : Bool)
  deriving DecidableEq, Repr

/-- `ack_batch`: `basic_ack(delivery_tag=messages[-1].tag, multiple=True)`
— acknowledge the last drained message, covering all prior ones.
Python indexes `messages[-1]`, so the loop only ever calls this with a
non-empty list; the empty case is mapped to no action. -/
def ack_batch (messages : List Message) : List Action :=
  match messages.getLast? with
  | some m => [Action.ackMultiple m.tag]
  | none => []

/-- `reject_batch`: `basic_reject(tag, requeue)` for every message in the
list, in order. -/
def reject_batch (messages : List Message) (requeue : Bool) : List Action :=
  messages.map (fun m => Action.reject m.tag requeue)

/-- `map_messages_to_payloads`: deserialize each body
(`TransactionRequest.deserialize`, an external CBOR decode modelled by
the `deser` parameter); parse failures are rejected individually with
`requeue=False` and excluded from the payload list.  Returns the
surviving payloads and the rejection actions, each in message order. -/
def map_messages_to_payloads (deser : String → Option TransactionRequest)
    (messages : List Message) : List TransactionRequest × List Action :=
  match messages with
  | [] => ([], [])
  | m :: rest =>
    let (ps, as') := map_messages_to_payloads deser rest
    match deser m.body with
    | some p => (p :: ps, as')
    | none => (ps, Action.reject m.tag false :: as')

/-- The `try/except` tail of one `consume_queue` iteration: success →
`ack_batch`; `Sawtooth_back_pressure_exception` → `reject_batch` with
`requeue=True`; any other exception → `reject_batch` with
`requeue=False`. -/
def batchOutcomeActions (messages : List Message)
    (result : Except ServerError (List TransactionPayload × List Transaction × String)) :
    List Action :=
  match result with
  | .ok _ => ack_batch messages
  | .error .backPressure => reject_batch messages true
  | .error _ => reject_batch messages false

/-- The body of one `while True` iteration of `consume_queue`, after the
messages have been drained: map them to payloads (rejecting malformed
ones individually), call `create_and_send_batch`, and apply the batch
outcome.  The returned list is every channel action the iteration posts,
in order. -/
def consumeIteration (srv : Server) (deser : String → Option TransactionRequest)
    (messages : List Message) : List Action :=
  (map_messages_to_payloads deser messages).2
    ++ batchOutcomeActions messages
        (srv.createAndSendBatch (map_messages_to_payloads deser messages).1)

/-! ## `wait_to_consume` (`src/app/main.py`, lines 68-89)

The loop waits for a non-empty buffer, demands
`max(1, tokens - remaining)` from the token bucket, then reshapes
`tokens` against the leaky-bucket limit using the carry-over counter
`remaining`.  The embedding takes the observed buffer size and the
carry-over value and returns the demanded amount together with the
released allowance and the new carry-over. -/

structure WaitToConsumeResult where
  demanded : Int
  released : Int
  remaining : Int
  deriving DecidableEq, Repr

/-- One pass of `wait_to_consume` after `tokens = buffer.qsize()` was
observed (non-zero): `demanded` is the argument of
`token_bucket.consume`; `released` is the value returned to the drain;
`remaining` is the carry-over after the update. -/
def wait_to_consume (limit bufferSize remaining : Int) : WaitToConsumeResult :=
  let demanded := max 1 (bufferSize - remaining)
  if bufferSize > limit then
    { demanded := demanded
      released := limit
      remaining := remaining + (bufferSize - limit) }
  else
    let excess := min remaining (limit - bufferSize)
    { demanded := demanded
      released := bufferSize + excess
      remaining := remaining - excess }

/-! ## Ingestion callback (`src/app/main.py`, lines 131-137) -/

/-- Arguments of a `queue.Queue.put` call: whether it blocks, and its
timeout (`none` = wait forever). -/
structure PutSpec where
  block : Bool
  timeout : Option ℚ
  deriving DecidableEq, Repr

/-- The `buffer.put((ch, method, body))` call in `_consumer_callback`:
a plain blocking put with no timeout argument. -/
def consumerCallbackPut : PutSpec := { block := true, timeout := none }

/-- Python `queue.Queue.put` semantics: `queue.Full` is raised only by a
non-blocking put on a full queue, or by a blocking put whose timeout
elapses while the queue stays full; a blocking put without timeout waits
forever and never raises. -/
def putRaisesFull (ps : PutSpec) (queueStaysFull : Bool) : Bool :=
  if ps.block then
    match ps.timeout with
    | none => false
    | some _ => queueStaysFull
  else queueStaysFull

/-- Outcome of the enqueue attempt as seen by `_consumer_callback`. -/
inductive PutOutcome
  | ok
  | full
  deriving DecidableEq, Repr

/-- `_consumer_callback` after the put: on `queue.Full` reject the
message with `requeue=True`; otherwise no channel action. -/
def consumerCallback (tag : Nat) : PutOutcome → List Action
  | .ok => []
  | .full => [Action.reject tag true]

/-! ## Confirmation listener (`src/app/core/__init__.py`, lines 270-317) -/

/-- Document written by `Server._save_mongo_document(payload)`. -/
structure MongoDocument where
  sender : String
  signer : String
  ca : String
  hash : String
  deriving DecidableEq, Repr

/-- `Server._save_mongo_document`: `{sender: payload.sender_public_key,
signer: batcher key, ca: '', hash: payload.hash()}`. -/
def Server.saveMongoDocument (srv : Server) (payload : TransactionPayload) : MongoDocument :=
  { sender := payload.sender_public_key
    signer := srv.signerPubKey
    ca := ""
    hash := srv.payloadHash payload }

/-- What one `_async_task` thread did: the queue it consumed, the
document it wrote (if any), and whether it deleted the queue. -/
structure ListenerResult where
  queue : String
  document : Option MongoDocument
  queueDeleted : Bool
  deriving DecidableEq, Repr

/-- `Server._start_blockchain_event_callback_listener`.  Each payload
spawns a thread polling the queue named by that payload's hash for up to
30 s; `eventArrived h` says whether a message reached queue `h` inside
the window.  The queue name `hash` is passed to `_async_task` through
`args`, but `payload` in `self._save_mongo_document(payload)` is a free
variable of the closure — Python binds it late, so when the threads run
(after the spawning `for` loop has finished, the schedule modelled here)
it holds the LAST payload of the list.  The queue is deleted in both
branches. -/
def Server.startBlockchainEventCallbackListener (srv : Server)
    (transactions_payload : List TransactionPayload) (eventArrived : String → Bool) :
    List ListenerResult :=
  match transactions_payload.getLast? with
  | none => []
  | some lastPayload =>
    transactions_payload.map (fun p =>
      let h := srv.payloadHash p
      { queue := h
        document := if eventArrived h then some (srv.saveMongoDocument lastPayload) else none
        queueDeleted := true })

/-! ## Concrete instances used to evaluate the embedding

Toy instantiations of the external parameters (crypto, CBOR, SHA-512,
CA), used only to run the embedded code on concrete inputs. -/

/-- A server whose externals are simple computable functions: signatures
verify iff they equal `"ok:" ++ key`, the CA answers HTTP 200 with body
`"casig"`, and the validator answers with the given status name. -/
def demoServer (validatorStatus : String) : Server :=
  { signerPubKey := "bb"
    sign := fun s => "sig:" ++ s
    parsePubKey := fun s => if s = "" then none else some ⟨s⟩
    verify := fun sg _msg pk => sg = "ok:" ++ pk.hex
    serializeRequestHeader := fun h => h.sender_public_key
    ca := fun _ => .response 200 "OK" "casig"
    serializeTxHeader := fun h => h.payload_sha512
    serializeBatchHeader := fun h => String.join h.transaction_ids
    serializePayload := fun p => p.data
    payloadHash := fun p => "h:" ++ p.data
    nonce := "nn"
    validatorStatus := validatorStatus }

def demoCSR : CertificateRequest := ⟨"dn", "pk", none⟩

/-- A request whose client signature verifies under `demoServer`. -/
def demoValidRequest : TransactionRequest := ⟨⟨"aa", demoCSR⟩, "ok:aa", "d1"⟩

/-- A request whose client signature fails verification under `demoServer`. -/
def demoInvalidRequest : TransactionRequest := ⟨⟨"aa", demoCSR⟩, "bad", "d2"⟩

/-- CBOR decode used on concrete runs: only the body `"good"` parses. -/
def demoDeser : String → Option TransactionRequest :=
  fun b => if b = "good" then some demoValidRequest else none

/-- Two drained messages: tag 1 malformed, tag 2 well-formed. -/
def demoMessages : List Message := [⟨1, "bad"⟩, ⟨2, "good"⟩]

/-- The payloads `create_and_send_batch` builds from
`[demoInvalidRequest, demoValidRequest]` under `demoServer`. -/
def demoPs : List TransactionPayload :=
  [(demoServer "OK").createPayload demoValidRequest "casig"]

/-- The transactions built from the same input. -/
def demoTs : List Transaction :=
  [(demoServer "OK").wrapPayloadInTransaction ((demoServer "OK").createPayload demoValidRequest "casig")]

/-- Value of `hashlib.sha512(b'AirAnchor').hexdigest()` — a 128-char
lowercase-hex string standing in for a concrete payload hash. -/
def demoHash128 : String :=
  "2519a463d9f820220d663bf2b241bb370100e8b11e9d6566195459b50b1bcf00fca493b31d92f6f781309ba6ea56b1cc875b88862f4f0491555b2fd771099b94"

/-- `demoServer` with a 128-hex-char payload hash, for address checks. -/
def hexServer : Server := { demoServer "OK" with payloadHash := fun _ => demoHash128 }

/-- A payload whose sender key is 6 lowercase-hex chars. -/
def demoPayloadHex : TransactionPayload := ⟨demoCSR, "casig", "aabbcc", "nn", "d"⟩

/-- Payloads for the confirmation-listener run (hashes `"h:d1"`, `"h:d2"`
under `demoServer`). -/
def demoPayload1 : TransactionPayload := ⟨demoCSR, "casig", "aa", "nn", "d1"⟩

def demoPayload2 : TransactionPayload := ⟨demoCSR, "casig", "cc", "nn", "d2"⟩

/-! # Theorems -/

/-! ## Projections of `wait_to_consume` -/

theorem wait_to_consume_demanded (limit s rem : Int) :
    (wait_to_consume limit s rem).demanded = max 1 (s - rem) := by
  unfold wait_to_consume; split <;> rfl

theorem wait_to_consume_released (limit s rem : Int) :
    (wait_to_consume limit s rem).released
      = if limit < s then limit else s + min rem (limit - s) := by
  unfold wait_to_consume; split <;> simp_all

theorem wait_to_consume_remaining (limit s rem : Int) :
    (wait_to_consume limit s rem).remaining
      = if limit < s then rem + (s - limit) else rem - min rem (limit - s) := by
  unfold wait_to_consume; split <;> simp_all

/-! ## C5 — tokens demanded from the token bucket -/

/-- C5 (counterexample): the claim says the dispatcher demands exactly the
observed buffer size `s` from the token bucket; with `s = 5` and
carry-over `remaining = 3` (leaky limit 10) the code demands
`max(1, 5 − 3) = 2 ≠ 5`. -/
theorem c5_counterexample :
    (wait_to_consume 10 5 3).demanded = 2 ∧ (wait_to_consume 10 5 3).demanded ≠ 5 := by
  decide

/-- C5 (amended): after the buffer becomes non-empty with observed size
`s ≥ 1`, the dispatcher blocks until `TokenBucket.consume(max(1, s −
remaining))` succeeds; the demand is at least 1, never exceeds `s` while
the carry-over is non-negative, and equals `s` exactly when the
carry-over is zero. -/
theorem c5_amended (limit s rem : Int) (hrem : 0 ≤ rem) (hs : 1 ≤ s) :
    (wait_to_consume limit s rem).demanded = max 1 (s - rem) ∧
    1 ≤ (wait_to_consume limit s rem).demanded ∧
    (wait_to_consume limit s rem).demanded ≤ s ∧
    (rem = 0 → (wait_to_consume limit s rem).demanded = s) := by
  simp only [wait_to_consume_demanded]
  refine ⟨trivial, ?_, ?_, fun h0 => ?_⟩ <;> omega

/-- C5 witness: at `limit = 10`, `s = 5`, `remaining = 0` the demand is
the buffer size. -/
theorem c5_amended_witness : (wait_to_consume 10 5 0).demanded = 5 :=
  (c5_amended 10 5 0 (by decide) (by decide)).2.2.2 rfl

/-! ## C6 — leaky-bucket reshaping with carry-over -/

/-- C6: with `n` the token count observed by the dispatcher, leaky limit
`L` and non-negative carry-over: if `n > L` exactly `L` is released and
`n − L` is added to the carry-over; otherwise, with `e = min(remaining,
L − n)`, exactly `n + e` is released and `e` subtracted — and in both
cases the released allowance is at most `L` and the carry-over stays
non-negative. -/
theorem c6_reshaping (limit n rem : Int) (hrem : 0 ≤ rem) :
    (limit < n → (wait_to_consume limit n rem).released = limit ∧
        (wait_to_consume limit n rem).remaining = rem + (n - limit)) ∧
    (n ≤ limit → (wait_to_consume limit n rem).released = n + min rem (limit - n) ∧
        (wait_to_consume limit n rem).remaining = rem - min rem (limit - n)) ∧
    (wait_to_consume limit n rem).released ≤ limit ∧
    0 ≤ (wait_to_consume limit n rem).remaining := by
  simp only [wait_to_consume_released, wait_to_consume_remaining]
  refine ⟨fun hgt => ?_, fun hle => ?_, ?_, ?_⟩
  · rw [if_pos hgt, if_pos hgt]; exact ⟨rfl, rfl⟩
  · rw [if_neg (not_lt.mpr hle), if_neg (not_lt.mpr hle)]; exact ⟨rfl, rfl⟩
  · split <;> omega
  · split <;> omega

/-- C6 witness: a burst of 25 against limit 10 with empty carry-over
releases 10 and carries 15. -/
theorem c6_reshaping_witness :
    (wait_to_consume 10 25 0).released = 10 ∧ (wait_to_consume 10 25 0).remaining = 15 :=
  (c6_reshaping 10 25 0 (by decide)).1 (by decide)

/-! ## C7 — token bucket consume is replenish-then-all-or-nothing -/

/-- C7: for an existing bucket with `Δt = now − last ≥ 0` and a demand
`n ≥ 1`, `consume` first replenishes the count to
`min(capacity, tokens + rate·Δt)`, then subtracts `n` and reports `true`
exactly when the replenished count is at least `n`, and otherwise
reports `false` leaving the replenished count untouched. -/
theorem c7_consume_all_or_nothing (rate capacity n now : ℚ) (b : Bucket)
    (hdt : b.lastReplenishedAt ≤ now) (hn : 1 ≤ n) :
    (n ≤ min capacity (b.tokens + rate * (now - b.lastReplenishedAt)) →
       TokenBucket.consume rate capacity n now (some b)
         = some (true, ⟨min capacity (b.tokens + rate * (now - b.lastReplenishedAt)) - n, now⟩)) ∧
    (min capacity (b.tokens + rate * (now - b.lastReplenishedAt)) < n →
       TokenBucket.consume rate capacity n now (some b)
         = some (false, ⟨min capacity (b.tokens + rate * (now - b.lastReplenishedAt)), now⟩)) := by
  have h1 : ¬ n < 1 := not_lt.mpr hn
  have h2 : ¬ now < b.lastReplenishedAt := not_lt.mpr hdt
  constructor
  · intro hge
    simp [TokenBucket.consume, MemoryStorage.replenish, MemoryStorage.consume, h1, h2,
      not_lt.mpr hge]
  · intro hlt
    simp [TokenBucket.consume, MemoryStorage.replenish, MemoryStorage.consume, h1, h2, hlt]

/-- C7 witness: rate 5, capacity 30, bucket at 10 tokens last touched at
time 0; at time 1 a demand of 3 replenishes to 15 and conforms, leaving
12 tokens. -/
theorem c7_consume_witness :
    TokenBucket.consume 5 30 3 1 (some ⟨10, 0⟩) = some (true, ⟨12, 1⟩) := by
  have h := (c7_consume_all_or_nothing 5 30 3 1 ⟨10, 0⟩ (by norm_num) (by norm_num)).1
    (by norm_num [min_def])
  rw [h]
  norm_num [min_def]

/-! ## C8 — ingestion enqueue -/

/-- C8 (code evaluation): `_consumer_callback` enqueues with a plain
blocking `put` carrying no timeout argument; such a put never raises
`queue.Full`, so the reject-with-requeue handler guarding it is
unreachable and the claimed ≈ 1.2 s bounded wait is absent from the
code.  The handler itself, were it reached, would reject the specific
message with `requeue=True` as claimed. -/
theorem c8_unbounded_blocking_put :
    consumerCallbackPut.block = true ∧
    consumerCallbackPut.timeout = none ∧
    putRaisesFull consumerCallbackPut true = false ∧
    putRaisesFull consumerCallbackPut false = false ∧
    consumerCallback 7 PutOutcome.full = [Action.reject 7 true] ∧
    consumerCallback 7 PutOutcome.ok = [] :=
  ⟨rfl, rfl, rfl, rfl, rfl, rfl⟩

/-! ## C9 — malformed messages inside a drain -/

/-- C9 (code evaluation): draining `[tag 1 malformed, tag 2 valid]` with
the validator answering `QUEUE_FULL`, the malformed message is rejected
individually with `requeue=False` and excluded from the payloads, but
the batch-level backpressure handling then rejects the FULL drained
list — including tag 1 a second time, now with `requeue=True` — contrary
to the claim that the malformed message receives no further
acknowledgement or rejection from the batch-level outcome. -/
theorem c9_double_reject :
    map_messages_to_payloads demoDeser demoMessages
      = ([demoValidRequest], [Action.reject 1 false]) ∧
    consumeIteration (demoServer "QUEUE_FULL") demoDeser demoMessages
      = [Action.reject 1 false, Action.reject 1 true, Action.reject 2 true] :=
  ⟨rfl, rfl⟩

/-! ## C1 — dispatcher outcome trichotomy -/

/-- C1: for every drained batch, with `payloads` the deserialized
survivors: if `create_and_send_batch` succeeds the iteration multi-acks
the last drained message; if it raises the backpressure exception (the
mapping of the validator's `QUEUE_FULL`) every drained message is
rejected with `requeue=True`; on any other exception (the mapping of
`INVALID_BATCH`, or a CA `HTTPException`) every drained message is
rejected with `requeue=False`.  In each case the iteration's actions are
the per-message parse rejections followed by exactly that outcome. -/
theorem c1_dispatcher_trichotomy (srv : Server) (deser : String → Option TransactionRequest)
    (messages : List Message) (m : Message) (hlast : messages.getLast? = some m) :
    (∀ x, srv.createAndSendBatch (map_messages_to_payloads deser messages).1 = .ok x →
        consumeIteration srv deser messages
          = (map_messages_to_payloads deser messages).2 ++ [Action.ackMultiple m.tag]) ∧
    (srv.createAndSendBatch (map_messages_to_payloads deser messages).1
        = .error .backPressure →
        consumeIteration srv deser messages
          = (map_messages_to_payloads deser messages).2
              ++ messages.map (fun msg => Action.reject msg.tag true)) ∧
    (∀ e, srv.createAndSendBatch (map_messages_to_payloads deser messages).1 = .error e →
        e ≠ ServerError.backPressure →
        consumeIteration srv deser messages
          = (map_messages_to_payloads deser messages).2
              ++ messages.map (fun msg => Action.reject msg.tag false)) ∧
    Server.validateBatchResponseStatus "QUEUE_FULL" = .error .backPressure ∧
    Server.validateBatchResponseStatus "INVALID_BATCH"
      = .error .invalidTransactionFormat := by
  refine ⟨?_, ?_, ?_, rfl, rfl⟩
  · intro x hx
    unfold consumeIteration
    rw [hx]
    unfold batchOutcomeActions ack_batch
    rw [hlast]
  · intro hbp
    unfold consumeIteration
    rw [hbp]
    rfl
  · intro e he hne
    unfold consumeIteration
    rw [he]
    cases e with
    | backPressure => exact absurd rfl hne
    | invalidTransactionFormat => rfl
    | httpException s d => rfl

/-- C1 witness: the concrete backpressure run — validator `QUEUE_FULL`,
two drained messages — rejects both with `requeue=True` after the parse
rejection. -/
theorem c1_dispatcher_trichotomy_witness :
    consumeIteration (demoServer "QUEUE_FULL") demoDeser demoMessages
      = (map_messages_to_payloads demoDeser demoMessages).2
          ++ demoMessages.map (fun msg => Action.reject msg.tag true) :=
  (c1_dispatcher_trichotomy (demoServer "QUEUE_FULL") demoDeser demoMessages
    ⟨2, "good"⟩ rfl).2.1 rfl

/-! ## Builder lemmas shared by C2 and C3 -/

/-- Requests failing signature validation do not influence the builder
loop: processing a list is processing its valid sublist. -/
theorem processRequests_filter (srv : Server) (trs : List TransactionRequest) :
    srv.processRequests trs
      = srv.processRequests (trs.filter (fun tr => srv.validateTransactionRequest tr)) := by
  induction trs with
  | nil => rfl
  | cons tr rest ih =>
    cases hv : srv.validateTransactionRequest tr with
    | false =>
      rw [List.filter_cons_of_neg (by simp [hv])]
      simp only [Server.processRequests, hv, Bool.false_eq_true, if_false]
      exact ih
    | true =>
      rw [List.filter_cons_of_pos (by simp [hv])]
      simp only [Server.processRequests, hv, if_true, ih]

/-- When the builder loop completes without a CA failure, the transaction
list is exactly the per-request build applied to the validated requests,
in their original order. -/
theorem processRequests_ok_transactions (srv : Server) (trs : List TransactionRequest)
    {ps : List TransactionPayload} {ts : List Transaction}
    (h : srv.processRequests trs = .ok (ps, ts)) :
    ts = (trs.filter (fun tr => srv.validateTransactionRequest tr)).filterMap
          srv.buildTransactionOf := by
  induction trs generalizing ps ts with
  | nil =>
    simp only [Server.processRequests, Except.ok.injEq, Prod.mk.injEq] at h
    simp [← h.2]
  | cons tr rest ih =>
    cases hv : srv.validateTransactionRequest tr with
    | false =>
      simp only [Server.processRequests, hv, Bool.false_eq_true, if_false] at h
      rw [List.filter_cons_of_neg (by simp [hv])]
      exact ih h
    | true =>
      simp only [Server.processRequests, hv, if_true] at h
      cases hca : srv.sendCsrFirmRequest tr.header.certificate_request with
      | error e => rw [hca] at h; exact absurd h (by simp)
      | ok csrFirm =>
        rw [hca] at h
        cases hrec : srv.processRequests rest with
        | error e => rw [hrec] at h; exact absurd h (by simp)
        | ok pr =>
          obtain ⟨ps', ts'⟩ := pr
          rw [hrec] at h
          simp only [Except.ok.injEq, Prod.mk.injEq] at h
          rw [List.filter_cons_of_pos (by simp [hv]), List.filterMap_cons]
          simp only [Server.buildTransactionOf, hca]
          rw [← h.2, ← ih hrec]

/-! ## C2 — invalid client signatures are silently dropped -/

/-- C2: a request whose public key fails to parse or whose client
signature fails verification is dropped without raising: the builder's
result on the whole list equals its result on the validated sublist, the
surviving transaction list is at least one shorter than the input, and
every transaction in it was built from a validated request distinct from
the dropped one. -/
theorem c2_invalid_signature_dropped (srv : Server) (trs : List TransactionRequest)
    (tr : TransactionRequest) (ps : List TransactionPayload) (ts : List Transaction)
    (hmem : tr ∈ trs) (hinv : srv.validateTransactionRequest tr = false)
    (hok : srv.processRequests trs = .ok (ps, ts)) :
    ts.length + 1 ≤ trs.length ∧
    srv.processRequests trs
      = srv.processRequests (trs.filter (fun r => srv.validateTransactionRequest r)) ∧
    ∀ t ∈ ts, ∃ r, r ∈ trs ∧ srv.validateTransactionRequest r = true ∧ r ≠ tr ∧
      ∃ csrFirm, srv.sendCsrFirmRequest r.header.certificate_request = .ok csrFirm ∧
        t = srv.wrapPayloadInTransaction (srv.createPayload r csrFirm) := by
  have hts := processRequests_ok_transactions srv trs hok
  refine ⟨?_, processRequests_filter srv trs, ?_⟩
  · have h1 : ts.length ≤ (trs.filter (fun r => srv.validateTransactionRequest r)).length := by
      rw [hts]; exact List.length_filterMap_le _ _
    have h2 : (trs.filter (fun r => srv.validateTransactionRequest r)).length < trs.length :=
      List.length_filter_lt_length_iff_exists.mpr ⟨tr, hmem, by simp [hinv]⟩
    omega
  · intro t ht
    rw [hts] at ht
    obtain ⟨r, hrmem, hbuild⟩ := List.mem_filterMap.mp ht
    obtain ⟨hrin, hrval⟩ := List.mem_filter.mp hrmem
    refine ⟨r, hrin, hrval, ?_, ?_⟩
    · intro heq
      rw [heq, hinv] at hrval
      exact Bool.noConfusion hrval
    · unfold Server.buildTransactionOf at hbuild
      cases hca : srv.sendCsrFirmRequest r.header.certificate_request with
      | error e => rw [hca] at hbuild; exact absurd hbuild (by simp)
      | ok csrFirm =>
        rw [hca] at hbuild
        exact ⟨csrFirm, rfl, (Option.some.inj hbuild).symm⟩

/-- C2 witness: dropping the invalid request of a two-request input
leaves a single transaction. -/
theorem c2_witness :
    demoTs.length + 1 ≤ ([demoInvalidRequest, demoValidRequest] : List TransactionRequest).length :=
  (c2_invalid_signature_dropped (demoServer "OK") [demoInvalidRequest, demoValidRequest]
    demoInvalidRequest demoPs demoTs (by simp) rfl rfl).1

/-! ## C3 — batch header ids follow transaction order -/

/-- C3: every batch the builder assembles is the single batch of its
batch list; its header's `transaction_ids` are the contained
transactions' header signatures in order, the contained transactions are
exactly the built list, and that list follows the surviving (validated)
requests in drained order. -/
theorem c3_batch_transaction_ids (srv : Server) (trs : List TransactionRequest)
    (ps : List TransactionPayload) (ts : List Transaction)
    (hok : srv.processRequests trs = .ok (ps, ts)) :
    ∃ b, (srv.mergeTransactionsToBatches ts).batches = [b] ∧
      b.header.transaction_ids = b.transactions.map (fun t => t.header_signature) ∧
      b.transactions = ts ∧
      ts = (trs.filter (fun r => srv.validateTransactionRequest r)).filterMap
            srv.buildTransactionOf :=
  ⟨_, rfl, rfl, rfl, processRequests_ok_transactions srv trs hok⟩

/-- C3 witness: the concrete two-request run builds its transaction list
from the validated requests in order. -/
theorem c3_witness :
    demoTs = (([demoInvalidRequest, demoValidRequest] : List TransactionRequest).filter
        (fun r => (demoServer "OK").validateTransactionRequest r)).filterMap
        (demoServer "OK").buildTransactionOf :=
  (c3_batch_transaction_ids (demoServer "OK") [demoInvalidRequest, demoValidRequest]
    demoPs demoTs rfl).choose_spec.2.2.2

/-! ## C4 — the derived state address -/

theorem all_take_of_all {p : Char → Bool} (l : List Char) (n : Nat) (h : l.all p = true) :
    (l.take n).all p = true :=
  List.all_eq_true.mpr fun x hx => List.all_eq_true.mp h x (List.take_subset n l hx)

theorem all_drop_of_all {p : Char → Bool} (l : List Char) (n : Nat) (h : l.all p = true) :
    (l.drop n).all p = true :=
  List.all_eq_true.mpr fun x hx => List.all_eq_true.mp h x (List.drop_subset n l hx)

/-- C4: for any payload whose sender key has at least 6 hex characters
and whose hash has at least 58 hex characters (a secp256k1 hex key has
66 and a SHA-512 hexdigest 128), the built transaction header's inputs
and outputs both equal the single derived address
`sha512(FAMILY_NAME)[0:6] ++ sender_public_key[0:6] ++ payload_hash[-58:]`,
which is exactly 70 hex characters; the one-argument form of the address
function returns just the 12-character prefix. -/
theorem c4_derived_address (srv : Server) (p : TransactionPayload)
    (hk : 6 ≤ p.sender_public_key.length)
    (hkhex : isHexStr p.sender_public_key = true)
    (hh : 58 ≤ (srv.payloadHash p).length)
    (hhhex : isHexStr (srv.payloadHash p) = true) :
    (srv.wrapPayloadInTransaction p).header.inputs
      = [make_location_key_address p.sender_public_key (some (srv.payloadHash p))] ∧
    (srv.wrapPayloadInTransaction p).header.outputs
      = [make_location_key_address p.sender_public_key (some (srv.payloadHash p))] ∧
    make_location_key_address p.sender_public_key (some (srv.payloadHash p))
      = locationKeyAddressPrefix6 ++ pySliceTo p.sender_public_key 6
          ++ pySliceLast (srv.payloadHash p) 58 ∧
    (make_location_key_address p.sender_public_key (some (srv.payloadHash p))).length = 70 ∧
    isHexStr (make_location_key_address p.sender_public_key (some (srv.payloadHash p))) = true ∧
    make_location_key_address p.sender_public_key none
      = locationKeyAddressPrefix6 ++ pySliceTo p.sender_public_key 6 ∧
    (make_location_key_address p.sender_public_key none).length = 12 := by
  have hne : srv.payloadHash p ≠ "" := by
    intro e
    rw [e] at hh
    have h0 : ("" : String).length = 0 := rfl
    omega
  have haddr : make_location_key_address p.sender_public_key (some (srv.payloadHash p))
      = locationKeyAddressPrefix6 ++ pySliceTo p.sender_public_key 6
          ++ pySliceLast (srv.payloadHash p) 58 := by
    rw [show make_location_key_address p.sender_public_key (some (srv.payloadHash p))
        = if srv.payloadHash p = "" then locationKeyAddressPrefix6 ++ pySliceTo p.sender_public_key 6
          else locationKeyAddressPrefix6 ++ pySliceTo p.sender_public_key 6
              ++ pySliceLast (srv.payloadHash p) 58 from rfl]
    rw [if_neg hne]
  have l0 : locationKeyAddressPrefix6.length = 6 := rfl
  have hk' : 6 ≤ p.sender_public_key.data.length := hk
  have hh' : 58 ≤ (srv.payloadHash p).data.length := hh
  have l1 : (pySliceTo p.sender_public_key 6).length = 6 := by
    show (p.sender_public_key.data.take 6).length = 6
    rw [List.length_take]
    omega
  have l2 : (pySliceLast (srv.payloadHash p) 58).length = 58 := by
    show ((srv.payloadHash p).data.drop ((srv.payloadHash p).data.length - 58)).length = 58
    rw [List.length_drop]
    omega
  have hhex : isHexStr (make_location_key_address p.sender_public_key
      (some (srv.payloadHash p))) = true := by
    rw [haddr]
    show ((locationKeyAddressPrefix6 ++ pySliceTo p.sender_public_key 6
        ++ pySliceLast (srv.payloadHash p) 58).data).all isHexChar = true
    rw [show (locationKeyAddressPrefix6 ++ pySliceTo p.sender_public_key 6
          ++ pySliceLast (srv.payloadHash p) 58).data
        = locationKeyAddressPrefix6.data ++ p.sender_public_key.data.take 6
            ++ (srv.payloadHash p).data.drop ((srv.payloadHash p).data.length - 58) from rfl]
    rw [List.all_append, List.all_append]
    rw [all_take_of_all _ _ hkhex, all_drop_of_all _ _ hhhex]
    decide
  refine ⟨rfl, rfl, haddr, ?_, hhex, rfl, ?_⟩
  · rw [haddr, String.length_append, String.length_append, l0, l1, l2]
  · show (locationKeyAddressPrefix6 ++ pySliceTo p.sender_public_key 6).length = 12
    rw [String.length_append, l0, l1]

set_option maxRecDepth 4000 in
/-- C4 witness: a 6-hex-char sender key and a 128-hex-char payload hash
give a 70-character address. -/
theorem c4_witness :
    (make_location_key_address demoPayloadHex.sender_public_key
        (some (hexServer.payloadHash demoPayloadHex))).length = 70 :=
  (c4_derived_address hexServer demoPayloadHex (by decide) (by decide) (by decide)
    (by decide)).2.2.2.1

/-! ## C10 — confirmation listener persistence -/

/-- C10 (code evaluation): two payloads with hashes `"h:d1"`, `"h:d2"`;
the event bus delivers only on queue `"h:d1"` within the window.  The
listener on `"h:d1"` persists a document — but, because `payload` in
`_async_task` is a late-bound closure variable shared with the spawning
loop, the document is built from the LAST payload (`sender "cc"`, hash
`"h:d2"`), not from the payload whose hash names the queue, contrary to
the claim.  The listener on `"h:d2"`, whose window saw no event, writes
no document; both ephemeral queues are deleted. -/
theorem c10_listener_uses_last_payload :
    (demoServer "OK").startBlockchainEventCallbackListener [demoPayload1, demoPayload2]
        (fun h => h = "h:d1")
      = [{ queue := "h:d1",
           document := some { sender := "cc", signer := "bb", ca := "", hash := "h:d2" },
           queueDeleted := true },
         { queue := "h:d2", document := none, queueDeleted := true }] ∧
    (demoServer "OK").saveMongoDocument demoPayload1
      = { sender := "aa", signer := "bb", ca := "", hash := "h:d1" } ∧
    ({ sender := "cc", signer := "bb", ca := "", hash := "h:d2" } : MongoDocument)
      ≠ (demoServer "OK").saveMongoDocument demoPayload1 := by
  refine ⟨rfl, rfl, by decide⟩

end AirAnchor
